import Mathlib

/-!
Verification of the pv (pipe viewer) transfer engine, display formatter,
control loop and remote-control components, as shallowly embedded from the
C sources under src/pv.  Machine integers are modelled as Int/Nat (no
overflow is reachable at the values involved), C long double values that
only feed comparisons and exact divisions are modelled as Rat, and C
buffers are modelled as lists.  Each embedded definition cites the source
function and line range it is translated from.

The file is organised as all definitions first, then all theorems.
-/

/- =====================================================================
   DEFINITIONS
   ===================================================================== -/

/- ---------------------------------------------------------------------
   Exit-status bits.  pv.h is not present under src/; these bit values are
   modelled from the spec (section 6, "Exit codes"): 1 = generic transfer
   error, 2 = memory, 8 = remote or pid failure.
   --------------------------------------------------------------------- -/

/-- Modelled from the spec: exit-code bit for a generic transfer error. -/
def PV_ERROREXIT_TRANSFER : Nat := 1

/-- Modelled from the spec: exit-code bit for a memory allocation failure. -/
def PV_ERROREXIT_MEMORY : Nat := 2

/-- Modelled from the spec: exit-code bit for a remote or pid failure. -/
def PV_ERROREXIT_REMOTE_OR_PID : Nat := 8

/- ---------------------------------------------------------------------
   C1: the error-skip amount schedule.
   From src/pv/transfer.c, pv__transfer_read, lines 537-548: the skip
   amount chosen before block-alignment rounding.  At this point
   read_errors_in_a_row has already been incremented (line 483), so on the
   nth consecutive unrecoverable read error its value is n.
   --------------------------------------------------------------------- -/

/-- transfer.c lines 537-548: amount_to_skip as a function of
control.error_skip_block and transfer.read_errors_in_a_row. -/
def skipAmount (error_skip_block : Int) (read_errors_in_a_row : Int) : Int :=
  if 0 < error_skip_block then error_skip_block
  else if read_errors_in_a_row < 10 then
    (if read_errors_in_a_row < 5 then 1 else 2)
  else if read_errors_in_a_row < 20 then
    2 ^ (read_errors_in_a_row - 10).toNat
  else 512

/-- The adaptive schedule as the (amended) spec words it: on the nth
consecutive error, skip 1 byte for the first 4 errors, 2 bytes for errors
5 to 9, 2 ^ (n - 10) bytes for errors 10 to 19, and 512 bytes from the
20th error onward. -/
def specSkipSchedule (n : Int) : Int :=
  if n ≤ 4 then 1
  else if n ≤ 9 then 2
  else if n ≤ 19 then 2 ^ (n - 10).toNat
  else 512

/- ---------------------------------------------------------------------
   C10: line-mode truncation of the write amount.
   From src/pv/string.c, pv_memrchr, lines 167-188 (last occurrence of a
   byte in a window), and src/pv/transfer.c, pv_transfer, lines 1263-1277.
   --------------------------------------------------------------------- -/

/-- string.c lines 167-188: index of the last occurrence of byte m in the
buffer, scanning from the end, or none if the byte does not occur. -/
def pv_memrchr_idx : List Nat → Nat → Option Nat
  | [], _ => none
  | b :: rest, m =>
    match pv_memrchr_idx rest m with
    | some i => some (i + 1)
    | none => if b = m then some 0 else none

/-- transfer.c pv_transfer lines 1267-1277: in line mode without
null-terminated lines, the amount to write is truncated to end one byte
after the last newline (byte 10) of the pending window
buffer[write_position ..< write_position + to_write]; if the window holds
no newline, to_write (the window length) is left unchanged. -/
def lineModeToWrite (window : List Nat) : Nat :=
  match pv_memrchr_idx window 10 with
  | some i => i + 1
  | none => window.length

/- ---------------------------------------------------------------------
   C5: dispatch on a failed or empty write.
   From src/pv/transfer.c, pv__transfer_write, lines 966-1001, reached
   only with nwritten ≤ 0, and pv_transfer, lines 1284-1296 and 1322.
   --------------------------------------------------------------------- -/

/-- The errno values distinguished by pv__transfer_write after a failed
write; every other errno value is collapsed to other. -/
inductive WriteErrno
  | eintr
  | eagain
  | epipe
  | other
deriving DecidableEq

/-- State read by the post-write dispatch of pv__transfer_write. -/
structure WriteDispatchIn where
  nwritten : Int
  werrno : WriteErrno
  eof_in : Bool
  eof_out : Bool
  pipe_closed : Bool
  exit_status : Nat
  written : Int
deriving DecidableEq

/-- State written by the post-write dispatch of pv__transfer_write: ret is
the C return value (0 = transient, tell pv_transfer to return 0; 1 =
continue), and errorEmitted records whether pv_error was called. -/
structure WriteDispatchOut where
  ret : Nat
  eof_in : Bool
  eof_out : Bool
  pipe_closed : Bool
  exit_status : Nat
  written : Int
  errorEmitted : Bool
deriving DecidableEq

/-- transfer.c pv__transfer_write lines 966-1001: with nwritten ≤ 0,
either the write was transient (nwritten = 0 or EINTR or EAGAIN: wait
briefly and return 0), or EPIPE (set both EOF flags and pipe_closed,
return 0 with no error message), or a fatal write error (report, set the
transfer exit bit, set eof_out, written = -1, return 1). -/
def writeDispatch (s : WriteDispatchIn) : WriteDispatchOut :=
  if s.nwritten = 0 ∨ s.werrno = WriteErrno.eintr ∨ s.werrno = WriteErrno.eagain then
    ⟨0, s.eof_in, s.eof_out, s.pipe_closed, s.exit_status, s.written, false⟩
  else if s.werrno = WriteErrno.epipe then
    ⟨0, true, true, true, s.exit_status, s.written, false⟩
  else
    ⟨1, s.eof_in, true, s.pipe_closed, s.exit_status ||| PV_ERROREXIT_TRANSFER, -1, true⟩

/-- transfer.c pv_transfer lines 1291-1296 and 1322: when
pv__transfer_write returns 0, pv_transfer returns 0 immediately; otherwise
it falls through and finally returns transfer.written. -/
def pv_transfer_afterWrite (writeRet : Nat) (written : Int) : Int :=
  if writeRet = 0 then 0 else written

/- ---------------------------------------------------------------------
   C6: the splice-attempt guard and the EINVAL failure cache.
   From src/pv/transfer.c, pv__transfer_read, lines 362-390, and
   src/pv/state.c line 128 (splice_failed_fd initialised to -1).
   --------------------------------------------------------------------- -/

/-- One call of pv__transfer_read, as far as the splice guard can see:
the input fd, the control flags consulted by the guard, the amount of
unwritten data in the buffer, and whether splice would fail with EINVAL
if it were attempted on this call. -/
structure SpliceCall where
  fd : Int
  linemode : Bool
  no_splice : Bool
  to_write : Int
  spliceEinval : Bool
deriving DecidableEq

/-- state.c line 128: initial value of transfer.splice_failed_fd. -/
def spliceFailedFdInit : Int := -1

/-- transfer.c lines 364-366: splice is attempted exactly when line mode
is off, splice is not disabled, the fd is not the recorded failed fd, and
there is no unwritten data in the buffer. -/
def spliceAttempted (splice_failed_fd : Int) (c : SpliceCall) : Bool :=
  (!c.linemode) && (!c.no_splice) && (c.fd != splice_failed_fd) && (c.to_write == 0)

/-- transfer.c lines 383-386: when an attempted splice fails with EINVAL,
splice_failed_fd is overwritten with the current fd; otherwise it is
unchanged. -/
def spliceStepFd (splice_failed_fd : Int) (c : SpliceCall) : Int :=
  if spliceAttempted splice_failed_fd c && c.spliceEinval then c.fd
  else splice_failed_fd

/-- The splice_failed_fd state after a sequence of pv__transfer_read
calls. -/
def runSplice (splice_failed_fd : Int) (calls : List SpliceCall) : Int :=
  calls.foldl spliceStepFd splice_failed_fd

/- ---------------------------------------------------------------------
   C2: per-tick pipe-consumption accounting in the main loop.
   From src/pv/loop.c, pv_main_loop, lines 402-484.
   --------------------------------------------------------------------- -/

/-- loop.c lines 467-477: walk backwards through the circular buffer of
line-separator positions, counting separators strictly beyond the last
consumed position; the C array access line_positions[array_index] is
always in range because the stored length never exceeds the capacity, so
the out-of-range case (modelled as none) stops the walk. -/
def linesNotConsumedLoop (positions : List Int) (head cap : Nat) (lastConsumed : Int)
    (len : Nat) (line_from_end : Nat) : Nat :=
  if line_from_end < len then
    let array_index := (head + cap - line_from_end - 1) % cap
    match positions.get? array_index with
    | some p =>
      if p ≤ lastConsumed then 0
      else 1 + linesNotConsumedLoop positions head cap lastConsumed len (line_from_end + 1)
    | none => 0
  else 0
termination_by len - line_from_end

/-- The inputs of the post-transfer accounting fragment of one main-loop
tick: fionread is some n when the FIONREAD ioctl succeeds reporting n
unread bytes in the output pipe, none when the ioctl fails. -/
structure PipeTick where
  output_is_pipe : Bool
  linemode : Bool
  pipe_closed : Bool
  total_written : Int
  prev_wbnc : Int
  fionread : Option Int
  line_positions : Option (List Int)
  line_positions_head : Nat
  line_positions_capacity : Nat
  line_positions_length : Nat
  last_output_position : Int

/-- loop.c lines 402-428: the new value of
transfer.written_but_not_consumed.  When the output is a pipe: 0 if the
pipe-closed flag is set, else the FIONREAD result if the ioctl succeeded
with a nonnegative count, else 0.  Untouched when the output is not a
pipe. -/
def tickWbnc (t : PipeTick) : Int :=
  if t.output_is_pipe = true then
    if t.pipe_closed = true then 0
    else
      match t.fionread with
      | some n => if 0 ≤ n then n else 0
      | none => 0
  else t.prev_wbnc

/-- loop.c lines 431-484: transfer.transferred starts from
transfer.total_written; writing bytes to a pipe subtracts the unread pipe
bytes; writing lines to a pipe subtracts the number of line separators
sitting beyond the last consumed position. -/
def tickTransferred (t : PipeTick) : Int :=
  let wbnc := tickWbnc t
  if t.output_is_pipe = true ∧ t.linemode = false then
    t.total_written - wbnc
  else
    if t.output_is_pipe = true ∧ t.linemode = true ∧ 0 < wbnc ∧
        t.line_positions ≠ none then
      match t.line_positions with
      | some positions =>
        let lastConsumed := t.last_output_position - wbnc
        t.total_written -
          (linesNotConsumedLoop positions t.line_positions_head
            t.line_positions_capacity lastConsumed t.line_positions_length 0 : Int)
      | none => t.total_written
    else t.total_written

/- ---------------------------------------------------------------------
   C3: the completion percentage.
   From src/pv/number.c, pv_percentage, lines 291-304, and src/pv/calc.c,
   pv_calculate_transfer_rate, lines 160-181.  The C doubles carrying the
   percentage are modelled as rationals.
   --------------------------------------------------------------------- -/

/-- number.c lines 291-304: 100 * amount / total, or 0 when total < 1. -/
def pv_percentage (amount : Int) (total : Int) : ℚ :=
  if total < 1 then 0
  else ((amount : ℚ) * 100) / (total : ℚ)

/-- calc.c lines 169-172: with unknown size the percentage grows by 2
per call while the transfer rate is positive, and is reset to 0 once it
exceeds 199. -/
def percentageUnknownSize (transfer_rate : ℚ) (percentage : ℚ) : ℚ :=
  if 199 < (if 0 < transfer_rate then percentage + 2 else percentage) then 0
  else (if 0 < transfer_rate then percentage + 2 else percentage)

/-- calc.c lines 177-181: the final clamp, so the percentage is never
negative or above 100000. -/
def percentageClamp (p : ℚ) : ℚ :=
  if 100000 < (if p < 0 then 0 else p) then 100000 else (if p < 0 then 0 else p)

/-- calc.c lines 160-181: the percentage update of one
pv_calculate_transfer_rate call.  With unknown size the percentage
follows the saw-tooth; with known size it is pv_percentage; finally it is
clamped. -/
def updatePercentage (size transferred : Int) (transfer_rate : ℚ)
    (percentage : ℚ) : ℚ :=
  percentageClamp
    (if size ≤ 0 then percentageUnknownSize transfer_rate percentage
     else pv_percentage transferred size)

/- ---------------------------------------------------------------------
   C4: read-error warning and skip trace emission.
   From src/pv/transfer.c, pv__transfer_read, lines 502-511 (warning shown
   once per input, guarded by read_error_warning_shown, which pv_transfer
   lines 1121-1125 reset whenever the input fd changes) and lines 612-632
   (trace of the skipped range only when skip_errors < 2).
   --------------------------------------------------------------------- -/

/-- Per-call classification of a read on one input, as seen by the
error-skip machinery: a successful read (or EOF), a transient EINTR or
EAGAIN error, or an unrecoverable read error entering the skip path
(skip-errors at least 1). -/
inductive ReadEvent
  | okRead
  | transientErr
  | skipErr
deriving DecidableEq

/-- transfer.c lines 504-511: on entering the skip path, the warning is
emitted only when read_error_warning_shown is still false, and the flag
is then set; other events leave the flag alone.  Returns the new flag and
the number of warnings emitted by this call. -/
def warnStep (shown : Bool) (ev : ReadEvent) : Bool × Nat :=
  match ev with
  | ReadEvent.skipErr => (true, if shown = true then 0 else 1)
  | _ => (shown, 0)

/-- Warnings emitted over a sequence of reads, starting from a given
read_error_warning_shown flag. -/
def countWarningsFrom (shown : Bool) : List ReadEvent → Nat
  | [] => 0
  | ev :: rest =>
    (warnStep shown ev).2 + countWarningsFrom (warnStep shown ev).1 rest

/-- Warnings emitted over the reads of one input; the flag starts false
because pv_transfer resets it when the input fd changes. -/
def countWarnings (events : List ReadEvent) : Nat := countWarningsFrom false events

/-- transfer.c lines 612-632: outcome of completing a skip attempt.  If
some bytes were skipped, the buffer is zero-filled, the read position
advances by the skipped amount, and the one-line trace of the skipped
range is printed exactly when skip_errors < 2; if nothing was skipped,
the input is marked ended. -/
structure SkipOutcome where
  traceEmitted : Bool
  read_position : Nat
  eof_in : Bool
deriving DecidableEq

/-- transfer.c lines 612-632, as a function of the skip-errors level, the
amount actually skipped, and the read position. -/
def skipCompletion (skip_errors : Nat) (amount_skipped : Int)
    (read_position : Nat) : SkipOutcome :=
  if 0 < amount_skipped then
    ⟨decide (skip_errors < 2), read_position + amount_skipped.toNat, false⟩
  else
    ⟨false, read_position, true⟩

/- ---------------------------------------------------------------------
   C7: two-pass fixed/elastic layout of the display format.
   From src/pv/display.c, pv_format, lines 1072-1162.
   --------------------------------------------------------------------- -/

/-- One parsed format segment as the layout passes see it: a literal
(type -1) with the width recorded at parse time, or a formatter segment
with its component's dynamic flag and its chosen (fixed) size. -/
structure FmtSegment where
  isLiteral : Bool
  parsedWidth : Nat
  dynamic : Bool
  chosenSize : Nat
deriving DecidableEq

/-- display.c lines 1090-1092 and 1147-1149: a formatter segment has a
dynamic (elastic) width exactly when its component is dynamic and no
explicit size was chosen. -/
def segIsElastic (seg : FmtSegment) : Bool :=
  (!seg.isLiteral) && seg.dynamic && (seg.chosenSize == 0)

/-- display.c lines 1074-1113 (first pass): literals contribute their
parsed width to static_portion_width; fixed-width formatter segments
render and contribute their rendered width (render i is an oracle for
pv_strwidth of the bytes segment i produced); elastic segments are
skipped. -/
def staticPortionWidth (render : Nat → Nat) (segs : List FmtSegment) : Nat :=
  (segs.enum).foldl
    (fun acc p =>
      if p.2.isLiteral = true then acc + p.2.parsedWidth
      else if segIsElastic p.2 = true then acc
      else acc + render p.1) 0

/-- display.c line 1095: the number of elastic segments counted by the
first pass. -/
def dynamicSegmentCount (segs : List FmtSegment) : Nat :=
  segs.countP (fun seg => segIsElastic seg)

/-- display.c lines 1120-1129: the remaining width (0 when the static
portion already fills the terminal) divided by the number of elastic
segments when there is more than one. -/
def dynamicSegmentWidth (width : Nat) (render : Nat → Nat)
    (segs : List FmtSegment) : Nat :=
  if 1 < dynamicSegmentCount segs then
    (if staticPortionWidth render segs < width then
        width - staticPortionWidth render segs else 0) / dynamicSegmentCount segs
  else
    (if staticPortionWidth render segs < width then
        width - staticPortionWidth render segs else 0)

/-- display.c lines 1134-1162 (second pass), combined with the widths
taken by the first pass: the width each segment is rendered with. -/
def layoutWidths (width : Nat) (render : Nat → Nat)
    (segs : List FmtSegment) : List Nat :=
  (segs.enum).map
    (fun p =>
      if p.2.isLiteral = true then p.2.parsedWidth
      else if segIsElastic p.2 = true then dynamicSegmentWidth width render segs
      else render p.1)

/- ---------------------------------------------------------------------
   C8: the ETA formatter.
   From src/pv/display.c, pv_bound_long, lines 226-229, and
   pv_seconds_remaining, lines 237-247, and src/pv/format/eta.c,
   pv_formatter_eta, lines 17-72.  The long double average rate is
   modelled as a rational, and the C cast of the quotient to long as
   truncation toward zero.
   --------------------------------------------------------------------- -/

/-- display.c lines 226-229: clamp x into [mn, mx]. -/
def pv_bound_long (x mn mx : Int) : Int :=
  if x < mn then mn else if mx < x then mx else x

/-- The C cast of a (real-valued) quotient to long: truncation toward
zero, modelled on the rationals. -/
def ratTruncToInt (q : ℚ) : Int := if 0 ≤ q then ⌊q⌋ else ⌈q⌉

/-- display.c lines 237-247: estimated seconds until completion; 0 when
less than one unit has been transferred or the rate is below 0.001. -/
def pv_seconds_remaining (so_far total : Int) (rate : ℚ) : Int :=
  if so_far < 1 ∨ rate < 1/1000 then 0
  else ratTruncToInt (((total : ℚ) - (so_far : ℚ)) / rate)

/-- The inputs pv_formatter_eta reads through its args structure. -/
structure EtaArgs where
  size : Int
  buffer_size : Nat
  transferred : Int
  initial_offset : Int
  current_avg_rate : ℚ
  final_update : Bool

/-- format/eta.c lines 33-41: the displayed ETA value - seconds remaining
bounded into [0, 360000000] (100000 hours). -/
def etaValue (a : EtaArgs) : Int :=
  pv_bound_long
    (pv_seconds_remaining (a.transferred - a.initial_offset)
      (a.size - a.initial_offset) a.current_avg_rate) 0 360000000

/-- format/eta.c lines 48-57: the numeric fields printed after the "ETA"
label - day, hour, minute and second counts when the ETA exceeds one day,
otherwise hour, minute and second counts. -/
def etaFields (eta : Int) : List Int :=
  if 86400 < eta then [eta / 86400, (eta / 3600) % 24, (eta / 60) % 60, eta % 60]
  else [eta / 3600, (eta / 60) % 60, eta % 60]

/-- The printf "%02ld" rendering of one nonnegative field: at least two
digits, zero-padded. -/
def pad2 (n : Int) : List Char :=
  if (toString n).toList.length < 2 then '0' :: (toString n).toList
  else (toString n).toList

/-- format/eta.c lines 48-57: the rendered content string (the bytes
before the terminating NUL). -/
def etaContentChars (eta : Int) : List Char :=
  if 86400 < eta then
    "ETA ".toList ++ (toString (eta / 86400)).toList ++ [':']
      ++ pad2 ((eta / 3600) % 24) ++ [':'] ++ pad2 ((eta / 60) % 60)
      ++ [':'] ++ pad2 (eta % 60)
  else
    "ETA ".toList ++ (toString (eta / 3600)).toList ++ [':']
      ++ pad2 ((eta / 60) % 60) ++ [':'] ++ pad2 (eta % 60)

/-- format/eta.c lines 64-69: on the final update every byte of the
content up to the terminating NUL is overwritten with a space. -/
def eraseContent (content : List Char) : List Char :=
  content.map (fun _ => ' ')

/-- What the ETA formatter produced: whether anything was rendered, the
bounded ETA value, its numeric fields, and the content characters. -/
structure EtaOut where
  shown : Bool
  eta : Int
  fields : List Int
  content : List Char

/-- format/eta.c lines 17-72: the ETA formatter.  Nothing is rendered
when the size is unknown (size < 1) or the segment buffer is empty. -/
def pv_formatter_eta (a : EtaArgs) : EtaOut :=
  if a.size < 1 then ⟨false, 0, [], []⟩
  else if a.buffer_size = 0 then ⟨false, 0, [], []⟩
  else
    ⟨true, etaValue a, etaFields (etaValue a),
     if a.final_update = true then eraseContent (etaContentChars (etaValue a))
     else etaContentChars (etaValue a)⟩

/- ---------------------------------------------------------------------
   C9: the remote-control acknowledgement wait.
   From src/pv/remote.c, pv_remote_set, lines 188-239 (after the control
   file has been written and SIGUSR2 sent to the receiver).
   --------------------------------------------------------------------- -/

/-- remote.c lines 195-215.  polls step is the observation made by
pv_sigusr2_received in iteration number step: some sender when a SIGUSR2
from that pid had arrived, none otherwise - so the loop body sets
received exactly when polls step = some remote.  This is the received
flag when the loop exits. -/
def remoteAckReceived (polls : Nat → Option Int) (remote : Int) (timeout : Nat)
    (step : Nat) : Bool :=
  if 10000 < timeout then
    if polls step = some remote then true
    else remoteAckReceived polls remote (timeout - 10000) (step + 1)
  else false
termination_by timeout
decreasing_by all_goals omega

/-- remote.c lines 195-215: the total microseconds spent in the 10000
microsecond select sleeps of the same loop (one sleep per iteration,
before the received check). -/
def remoteAckSlept (polls : Nat → Option Int) (remote : Int) (timeout : Nat)
    (step : Nat) : Nat :=
  if 10000 < timeout then
    if polls step = some remote then 10000
    else 10000 + remoteAckSlept polls remote (timeout - 10000) (step + 1)
  else 0
termination_by timeout
decreasing_by all_goals omega

/-- The number of iterations the wait loop of remote.c lines 198-215 runs
when no acknowledgement arrives, as a function of the initial timeout. -/
def numIters (timeout : Nat) : Nat :=
  if 10000 < timeout then numIters (timeout - 10000) + 1 else 0
termination_by timeout
decreasing_by all_goals omega

/-- The outcome of pv_remote_set from the point where the message has
been sent: the return value, whether the sender removed its control
file, and the microseconds spent waiting. -/
structure RemoteSetResult where
  ret : Nat
  fileRemoved : Bool
  sleptUsec : Nat

/-- remote.c lines 195-239: wait up to the 1100000 microsecond budget in
10000 microsecond steps for the acknowledging SIGUSR2 from the matching
pid; remove the control file unconditionally (line 221); return 0 when
the acknowledgement arrived and the remote/pid error code otherwise. -/
def pv_remote_set_tail (polls : Nat → Option Int) (remote : Int) :
    RemoteSetResult :=
  ⟨if remoteAckReceived polls remote 1100000 0 = true then 0
    else PV_ERROREXIT_REMOTE_OR_PID,
   true,
   remoteAckSlept polls remote 1100000 0⟩

/- =====================================================================
   THEOREMS
   ===================================================================== -/

/- ------------------------- C1 theorems ------------------------- -/

theorem skipAmount_eq_schedule (esb n : Int) (hn : 1 ≤ n) :
    skipAmount esb n = if 0 < esb then esb else specSkipSchedule n := by
  unfold skipAmount specSkipSchedule
  split_ifs with h1 h2 h3 h4 h5 h6 h7 <;> try rfl
  all_goals omega

/-- C1 counterexample: the claim says the first 5 consecutive errors skip
1 byte, but on the 5th consecutive error (read_errors_in_a_row = 5, no
explicit skip block) the code chooses a skip amount of 2 bytes, not 1. -/
theorem pv_c1_counterexample : skipAmount 0 5 = 2 ∧ skipAmount 0 5 ≠ 1 := by
  decide

/-- C1 (amended): with control.error_skip_block nonzero (and nonnegative,
as it is a block size), that value is the skip amount; with it zero, the
skip amount on the nth consecutive unrecoverable read error (n ≥ 1) is
the adaptive schedule: 1 byte for the first 4 errors, 2 bytes for errors
5-9, 2 ^ (n - 10) bytes for errors 10-19, and 512 bytes from the 20th
error onward. -/
theorem pv_c1_skip_schedule (esb n : Int) (hesb : 0 ≤ esb) (hn : 1 ≤ n) :
    (esb ≠ 0 → skipAmount esb n = esb) ∧
    (esb = 0 → skipAmount esb n = specSkipSchedule n) := by
  rw [skipAmount_eq_schedule esb n hn]
  constructor
  · intro hne
    rw [if_pos (by omega)]
  · intro heq
    subst heq
    rw [if_neg (by omega)]

/-- C1 witness: the theorem applied at error_skip_block = 0 and n = 12. -/
theorem pv_c1_witness :
    ((0:Int) ≤ 0 ∧ (1:Int) ≤ 12) ∧ skipAmount 0 12 = specSkipSchedule 12 :=
  ⟨⟨by decide, by decide⟩, (pv_c1_skip_schedule 0 12 (by decide) (by decide)).2 rfl⟩

/- ------------------------- C10 theorems ------------------------- -/

theorem pv_memrchr_idx_none_iff (l : List Nat) (m : Nat) :
    pv_memrchr_idx l m = none ↔ m ∉ l := by
  induction l with
  | nil => simp [pv_memrchr_idx]
  | cons b rest ih =>
    simp only [pv_memrchr_idx]
    cases hrest : pv_memrchr_idx rest m with
    | some i =>
      simp [hrest] at ih ⊢
      exact fun _ => ih
    | none =>
      rw [hrest] at ih
      by_cases hbm : b = m
      · simp [hbm, List.mem_cons]
      · simp only [if_neg hbm, List.mem_cons]
        constructor
        · intro _ hc
          rcases hc with hc | hc
          · exact hbm hc.symm
          · exact (ih.mp rfl) hc
        · intro _
          trivial

theorem pv_memrchr_idx_some_spec (l : List Nat) (m : Nat) (i : Nat)
    (h : pv_memrchr_idx l m = some i) :
    i < l.length ∧ l.get? i = some m ∧
      ∀ j, i < j → j < l.length → l.get? j ≠ some m := by
  induction l generalizing i with
  | nil => simp [pv_memrchr_idx] at h
  | cons b rest ih =>
    simp only [pv_memrchr_idx] at h
    cases hrest : pv_memrchr_idx rest m with
    | some i0 =>
      rw [hrest] at h
      simp only [Option.some.injEq] at h
      subst h
      obtain ⟨h1, h2, h3⟩ := ih i0 hrest
      refine ⟨by simp; omega, by simpa using h2, ?_⟩
      intro j hj1 hj2
      cases j with
      | zero => omega
      | succ j0 =>
        simp only [List.get?_cons_succ]
        exact h3 j0 (by omega) (by simp at hj2; omega)
    | none =>
      rw [hrest] at h
      by_cases hbm : b = m
      · subst hbm
        rw [if_pos rfl] at h
        injection h with h
        subst h
        refine ⟨by simp, by simp, ?_⟩
        intro j hj1 hj2
        cases j with
        | zero => omega
        | succ j0 =>
          simp only [List.get?_cons_succ]
          intro hc
          have hmem := List.get?_mem hc
          exact ((pv_memrchr_idx_none_iff rest _).mp hrest) hmem
      · simp [hbm] at h

theorem pv_memrchr_idx_isSome_of_mem (l : List Nat) (m : Nat) (h : m ∈ l) :
    ∃ i, pv_memrchr_idx l m = some i := by
  cases hc : pv_memrchr_idx l m with
  | none => exact absurd h ((pv_memrchr_idx_none_iff l m).mp hc)
  | some i => exact ⟨i, rfl⟩

/-- C10: in line mode without null-terminated lines, whenever the pending
to-write window contains at least one newline, pv_transfer truncates the
amount to write so that the write ends exactly one byte after the last
newline in that window; only when the window contains no newline can a
write end at a non-line boundary (the amount stays the full window). -/
theorem pv_c10_linemode_truncation (window : List Nat) :
    (10 ∈ window →
      ∃ i, lineModeToWrite window = i + 1 ∧ i < window.length ∧
        window.get? i = some 10 ∧
        ∀ j, i < j → j < window.length → window.get? j ≠ some 10) ∧
    (10 ∉ window → lineModeToWrite window = window.length) := by
  constructor
  · intro hmem
    obtain ⟨i, hi⟩ := pv_memrchr_idx_isSome_of_mem window 10 hmem
    obtain ⟨h1, h2, h3⟩ := pv_memrchr_idx_some_spec window 10 i hi
    exact ⟨i, by simp [lineModeToWrite, hi], h1, h2, h3⟩
  · intro hmem
    simp [lineModeToWrite, (pv_memrchr_idx_none_iff window 10).mpr hmem]

/-- C10 witness: the theorem applied to the concrete window "h i \n x". -/
theorem pv_c10_witness :
    ∃ i, lineModeToWrite [104, 105, 10, 120] = i + 1 ∧
      i < ([104, 105, 10, 120] : List Nat).length ∧
      ([104, 105, 10, 120] : List Nat).get? i = some 10 ∧
      ∀ j, i < j → j < ([104, 105, 10, 120] : List Nat).length →
        ([104, 105, 10, 120] : List Nat).get? j ≠ some 10 :=
  (pv_c10_linemode_truncation [104, 105, 10, 120]).1 (by decide)

/- ------------------------- C5 theorems ------------------------- -/

/-- C5: when a write fails with EPIPE, pv__transfer_write sets eof_in,
eof_out and the pipe-closed flag, leaves the exit status untouched (so the
transfer error bit is not set), emits no error message, and returns the
transient code 0, so pv_transfer returns 0 rather than a negative value. -/
theorem pv_c5_epipe_orderly (s : WriteDispatchIn)
    (hn : s.nwritten < 0) (he : s.werrno = WriteErrno.epipe) :
    (writeDispatch s).eof_in = true ∧
    (writeDispatch s).eof_out = true ∧
    (writeDispatch s).pipe_closed = true ∧
    (writeDispatch s).exit_status = s.exit_status ∧
    (writeDispatch s).errorEmitted = false ∧
    (writeDispatch s).ret = 0 ∧
    pv_transfer_afterWrite (writeDispatch s).ret (writeDispatch s).written = 0 := by
  have hne : s.nwritten ≠ 0 := by omega
  simp [writeDispatch, hne, he, pv_transfer_afterWrite]

/-- C5 witness: the theorem applied to a concrete EPIPE write failure. -/
theorem pv_c5_witness :
    (writeDispatch ⟨-1, WriteErrno.epipe, false, false, false, 0, 5⟩).eof_in = true ∧
    (writeDispatch ⟨-1, WriteErrno.epipe, false, false, false, 0, 5⟩).eof_out = true ∧
    (writeDispatch ⟨-1, WriteErrno.epipe, false, false, false, 0, 5⟩).pipe_closed = true ∧
    (writeDispatch ⟨-1, WriteErrno.epipe, false, false, false, 0, 5⟩).exit_status = 0 ∧
    (writeDispatch ⟨-1, WriteErrno.epipe, false, false, false, 0, 5⟩).errorEmitted = false ∧
    (writeDispatch ⟨-1, WriteErrno.epipe, false, false, false, 0, 5⟩).ret = 0 ∧
    pv_transfer_afterWrite
      (writeDispatch ⟨-1, WriteErrno.epipe, false, false, false, 0, 5⟩).ret
      (writeDispatch ⟨-1, WriteErrno.epipe, false, false, false, 0, 5⟩).written = 0 :=
  pv_c5_epipe_orderly ⟨-1, WriteErrno.epipe, false, false, false, 0, 5⟩
    (by decide) rfl

/- ------------------------- C6 theorems ------------------------- -/

/-- C6 counterexample: splice fails with EINVAL on fd 3 (while being
attempted), then fails with EINVAL on fd 4; a later call on fd 3 attempts
splice again, contradicting the claim that an fd whose splice failed is
never spliced again within the run. -/
theorem pv_c6_counterexample :
    spliceAttempted spliceFailedFdInit ⟨3, false, false, 0, true⟩ = true ∧
    spliceAttempted (spliceStepFd spliceFailedFdInit ⟨3, false, false, 0, true⟩)
      ⟨4, false, false, 0, true⟩ = true ∧
    spliceAttempted
      (spliceStepFd (spliceStepFd spliceFailedFdInit ⟨3, false, false, 0, true⟩)
        ⟨4, false, false, 0, true⟩)
      ⟨3, false, false, 0, false⟩ = true := by
  decide

/-- C6 (amended): once a splice attempt on fd f has failed with EINVAL
(recording f in splice_failed_fd), splice is not attempted on f by any
later call for as long as no splice attempt on a different fd fails with
EINVAL; only such a failure on another fd, which overwrites the
single-slot record, can re-enable splice attempts on f. -/
theorem pv_c6_splice_not_reattempted (f : Int) (calls : List SpliceCall)
    (h : ∀ c ∈ calls, c.fd = f ∨ c.spliceEinval = false)
    (later : SpliceCall) (hfd : later.fd = f) :
    runSplice f calls = f ∧ spliceAttempted (runSplice f calls) later = false := by
  have hrun : runSplice f calls = f := by
    induction calls with
    | nil => rfl
    | cons c rest ih =>
      have hstep : spliceStepFd f c = f := by
        rcases h c (by simp) with hc | hc
        · unfold spliceStepFd spliceAttempted
          rw [hc]
          simp
        · unfold spliceStepFd
          rw [hc]
          simp
      show runSplice (spliceStepFd f c) rest = f
      rw [hstep]
      exact ih (fun c2 hc2 => h c2 (by simp [hc2]))
  refine ⟨hrun, ?_⟩
  rw [hrun]
  unfold spliceAttempted
  rw [hfd]
  simp

/-- C6 witness: after an EINVAL failure on fd 3, the calls on fd 3 and a
non-failing call on fd 5 never re-attempt splice on fd 3. -/
theorem pv_c6_witness :
    runSplice 3 [⟨3, false, false, 0, false⟩, ⟨5, false, false, 0, false⟩] = 3 ∧
    spliceAttempted
      (runSplice 3 [⟨3, false, false, 0, false⟩, ⟨5, false, false, 0, false⟩])
      ⟨3, false, false, 0, true⟩ = false :=
  pv_c6_splice_not_reattempted 3
    [⟨3, false, false, 0, false⟩, ⟨5, false, false, 0, false⟩]
    (by decide) ⟨3, false, false, 0, true⟩ rfl

/- ------------------------- C2 theorems ------------------------- -/

/-- C2: every tick, when the output is a pipe and line mode is off,
transferred is cumulative written minus the byte count FIONREAD reported
unread in the pipe; and whenever the pipe-closed flag is set,
written_but_not_consumed is forced to 0 before transferred is computed,
so transferred equals cumulative written. -/
theorem pv_c2_pipe_accounting (t : PipeTick)
    (hp : t.output_is_pipe = true) (hl : t.linemode = false) :
    (∀ n : Int, t.pipe_closed = false → t.fionread = some n → 0 ≤ n →
        tickTransferred t = t.total_written - n) ∧
    (t.pipe_closed = true →
        tickWbnc t = 0 ∧ tickTransferred t = t.total_written) := by
  constructor
  · intro n hclosed hfion hn
    have hw : tickWbnc t = n := by
      simp [tickWbnc, hp, hclosed, hfion, hn]
    simp [tickTransferred, hp, hl, hw]
  · intro hclosed
    have hw : tickWbnc t = 0 := by
      simp [tickWbnc, hp, hclosed]
    constructor
    · exact hw
    · simp [tickTransferred, hp, hl, hw]

/-- C2 witness: the theorem applied to a concrete tick where FIONREAD
reports 7 unread bytes of 100 written. -/
theorem pv_c2_witness :
    tickTransferred
      ⟨true, false, false, 100, 0, some 7, none, 0, 0, 0, 0⟩ = 100 - 7 :=
  (pv_c2_pipe_accounting ⟨true, false, false, 100, 0, some 7, none, 0, 0, 0, 0⟩
      rfl rfl).1 7 rfl rfl (by decide)

/- ------------------------- C3 theorems ------------------------- -/

/-- C3 counterexample: with a known size of 1 and 2 units transferred
(the size hint undershot the data and stop-at-size is off), the updated
percentage is 200, violating the claimed bound of 100 for size > 0. -/
theorem pv_c3_counterexample :
    updatePercentage 1 2 0 0 = 200 ∧ ¬(updatePercentage 1 2 0 0 ≤ 100) := by
  norm_num [updatePercentage, pv_percentage, percentageClamp]

/-- C3 (amended): when size > 0 the percentage is clamped into
[0, 100000] and is at most 100 whenever transferred has not exceeded
size (it is 100 * transferred / size, so it passes 100 exactly when
transferred passes size); when size <= 0 the percentage stays in
[0, 199] (hence below 200), increasing by 2 per call while data flows
and wrapping to 0 once it would exceed 199. -/
theorem percentageClamp_nonneg (p : ℚ) : 0 ≤ percentageClamp p := by
  unfold percentageClamp
  split_ifs <;> linarith

theorem percentageClamp_le_100000 (p : ℚ) : percentageClamp p ≤ 100000 := by
  unfold percentageClamp
  split_ifs <;> linarith

theorem percentageClamp_le_of_le (p c : ℚ) (hc : 0 ≤ c) (hp : p ≤ c)
    (hcap : c ≤ 100000) : percentageClamp p ≤ c := by
  unfold percentageClamp
  split_ifs <;> linarith

theorem percentageClamp_eq_of_bounds (p : ℚ) (h0 : 0 ≤ p) (h1 : p ≤ 100000) :
    percentageClamp p = p := by
  unfold percentageClamp
  split_ifs <;> linarith

theorem percentageUnknownSize_le_199 (rate p : ℚ) :
    percentageUnknownSize rate p ≤ 199 := by
  unfold percentageUnknownSize
  split_ifs <;> linarith

theorem pv_c3_percentage_bounds (size transferred : Int) (rate p : ℚ) :
    (0 < size →
      0 ≤ updatePercentage size transferred rate p ∧
      updatePercentage size transferred rate p ≤ 100000 ∧
      (transferred ≤ size → updatePercentage size transferred rate p ≤ 100)) ∧
    (size ≤ 0 →
      0 ≤ updatePercentage size transferred rate p ∧
      updatePercentage size transferred rate p ≤ 199 ∧
      (0 < rate → 0 ≤ p → p + 2 ≤ 199 →
        updatePercentage size transferred rate p = p + 2) ∧
      (0 < rate → 199 < p + 2 → updatePercentage size transferred rate p = 0)) := by
  constructor
  · intro hsize
    have hnle : ¬(size ≤ 0) := by omega
    have hnlt : ¬(size < 1) := by omega
    have hs0 : (0:ℚ) < (size : ℚ) := by exact_mod_cast hsize
    refine ⟨percentageClamp_nonneg _, percentageClamp_le_100000 _, ?_⟩
    intro htle
    have hcast : (transferred : ℚ) ≤ (size : ℚ) := by exact_mod_cast htle
    have hperc : pv_percentage transferred size ≤ 100 := by
      unfold pv_percentage
      rw [if_neg hnlt]
      rw [div_le_iff₀ hs0]
      nlinarith
    unfold updatePercentage
    rw [if_neg hnle]
    exact percentageClamp_le_of_le _ 100 (by norm_num) hperc (by norm_num)
  · intro hle
    refine ⟨percentageClamp_nonneg _, ?_, ?_, ?_⟩
    · unfold updatePercentage
      rw [if_pos hle]
      exact percentageClamp_le_of_le _ 199 (by norm_num)
        (percentageUnknownSize_le_199 rate p) (by norm_num)
    · intro hrate hp hbound
      unfold updatePercentage
      rw [if_pos hle]
      have hpus : percentageUnknownSize rate p = p + 2 := by
        unfold percentageUnknownSize
        rw [if_pos hrate, if_neg (by linarith)]
      rw [hpus]
      exact percentageClamp_eq_of_bounds _ (by linarith) (by linarith)
    · intro hrate hbound
      unfold updatePercentage
      rw [if_pos hle]
      have hpus : percentageUnknownSize rate p = 0 := by
        unfold percentageUnknownSize
        rw [if_pos hrate, if_pos hbound]
      rw [hpus]
      exact percentageClamp_eq_of_bounds 0 (by norm_num) (by norm_num)

/-- C3 witness: the theorem applied at size 10, transferred 5 (half
done), giving a percentage of at most 100, and at unknown size with the
previous percentage 6 and a positive rate, giving exactly 8. -/
theorem pv_c3_witness :
    (updatePercentage 10 5 1 0 ≤ 100) ∧ (updatePercentage 0 5 1 6 = 6 + 2) :=
  ⟨((pv_c3_percentage_bounds 10 5 1 0).1 (by decide)).2.2 (by decide),
   ((pv_c3_percentage_bounds 0 5 1 6).2 (by decide)).2.2.1 (by norm_num)
     (by norm_num) (by norm_num)⟩

/- ------------------------- C4 theorems ------------------------- -/

theorem countWarningsFrom_shown (events : List ReadEvent) :
    countWarningsFrom true events = 0 := by
  induction events with
  | nil => rfl
  | cons ev rest ih =>
    cases ev <;> simp [countWarningsFrom, warnStep, ih]

theorem countWarnings_eq_one (events : List ReadEvent)
    (hmem : ReadEvent.skipErr ∈ events) : countWarnings events = 1 := by
  unfold countWarnings
  induction events with
  | nil => simp at hmem
  | cons ev rest ih =>
    cases ev with
    | skipErr =>
      simp [countWarningsFrom, warnStep, countWarningsFrom_shown]
    | okRead =>
      have hr : ReadEvent.skipErr ∈ rest := by
        rcases List.mem_cons.mp hmem with hc | hc
        · exact absurd hc (by simp)
        · exact hc
      simp [countWarningsFrom, warnStep, ih hr]
    | transientErr =>
      have hr : ReadEvent.skipErr ∈ rest := by
        rcases List.mem_cons.mp hmem with hc | hc
        · exact absurd hc (by simp)
        · exact hc
      simp [countWarningsFrom, warnStep, ih hr]

/-- C4 counterexample: at skip-errors level 2 a successful skip of 4
bytes emits no trace, and at level 1 it does emit the trace - the
opposite of the claimed "if and only if the level is at least 2". -/
theorem pv_c4_counterexample :
    (skipCompletion 2 4 0).traceEmitted = false ∧
    (skipCompletion 1 4 0).traceEmitted = true := by
  decide

/-- C4 (amended): for every input whose reads fail unrecoverably with
skip-errors >= 1, the warning is emitted exactly once per input; and each
successful skip additionally emits the one-line trace of the skipped
range if and only if the skip-errors level is below 2 (the trace is
suppressed from level 2 upward). -/
theorem pv_c4_warn_once_trace_level (events : List ReadEvent)
    (hmem : ReadEvent.skipErr ∈ events) (skip_errors : Nat)
    (_hse : 1 ≤ skip_errors) (amount : Int) (rp : Nat) :
    countWarnings events = 1 ∧
    ((skipCompletion skip_errors amount rp).traceEmitted = true ↔
      (skip_errors < 2 ∧ 0 < amount)) := by
  refine ⟨countWarnings_eq_one events hmem, ?_⟩
  unfold skipCompletion
  by_cases hamt : 0 < amount
  · simp [hamt]
  · simp [hamt]

/-- C4 witness: the theorem applied to one input with reads
[ok, skip-error, skip-error] at skip-errors level 1 and a successful
4-byte skip. -/
theorem pv_c4_witness :
    countWarnings [ReadEvent.okRead, ReadEvent.skipErr, ReadEvent.skipErr] = 1 ∧
    ((skipCompletion 1 4 0).traceEmitted = true ↔ (1 < 2 ∧ (0:Int) < 4)) :=
  pv_c4_warn_once_trace_level
    [ReadEvent.okRead, ReadEvent.skipErr, ReadEvent.skipErr]
    (by decide) 1 (by decide) 4 0

/- ------------------------- C7 theorems ------------------------- -/

/-- C7: after the fixed pass has summed literal and fixed-width segment
widths into static_width, every elastic segment is rendered with exactly
(control.width - static_width) / count as its allotted width, where the
subtraction is floored at 0 (Nat subtraction) and the division is integer
division by the number of elastic segments.  (The code divides only when
the count exceeds 1, which agrees with dividing by a count of 1.) -/
theorem pv_c7_elastic_division (width : Nat) (render : Nat → Nat)
    (segs : List FmtSegment) (i : Nat) (seg : FmtSegment)
    (hget : segs.get? i = some seg) (helastic : segIsElastic seg = true) :
    (layoutWidths width render segs).get? i =
      some ((width - staticPortionWidth render segs) /
        dynamicSegmentCount segs) := by
  have hmem : seg ∈ segs := List.get?_mem hget
  have hcount : 0 < dynamicSegmentCount segs := by
    unfold dynamicSegmentCount
    exact List.countP_pos_iff.mpr ⟨seg, hmem, helastic⟩
  have hlit : seg.isLiteral = false := by
    unfold segIsElastic at helastic
    cases h : seg.isLiteral
    · rfl
    · rw [h] at helastic
      simp at helastic
  have hdsw : dynamicSegmentWidth width render segs =
      (width - staticPortionWidth render segs) / dynamicSegmentCount segs := by
    unfold dynamicSegmentWidth
    have hd : (if staticPortionWidth render segs < width then
        width - staticPortionWidth render segs else 0) =
        width - staticPortionWidth render segs := by
      split_ifs with h
      · rfl
      · omega
    rw [hd]
    split_ifs with h1
    · rfl
    · have hone : dynamicSegmentCount segs = 1 := by omega
      rw [hone, Nat.div_one]
  unfold layoutWidths
  rw [List.get?_map, List.get?_enum, hget]
  simp [hlit, helastic, hdsw]

/-- C7 witness: a literal of width 3 followed by two elastic segments in
a terminal 10 columns wide: each elastic segment is allotted
(10 - 3) / 2 = 3 columns. -/
theorem pv_c7_witness :
    (layoutWidths 10 (fun _ => 0)
      [⟨true, 3, false, 0⟩, ⟨false, 0, true, 0⟩, ⟨false, 0, true, 0⟩]).get? 1 =
      some ((10 - staticPortionWidth (fun _ => 0)
          [⟨true, 3, false, 0⟩, ⟨false, 0, true, 0⟩, ⟨false, 0, true, 0⟩]) /
        dynamicSegmentCount
          [⟨true, 3, false, 0⟩, ⟨false, 0, true, 0⟩, ⟨false, 0, true, 0⟩]) :=
  pv_c7_elastic_division 10 (fun _ => 0)
    [⟨true, 3, false, 0⟩, ⟨false, 0, true, 0⟩, ⟨false, 0, true, 0⟩]
    1 ⟨false, 0, true, 0⟩ rfl rfl

/- ------------------------- C8 theorems ------------------------- -/

theorem pv_bound_long_mem (x mn mx : Int) (h : mn ≤ mx) :
    mn ≤ pv_bound_long x mn mx ∧ pv_bound_long x mn mx ≤ mx := by
  unfold pv_bound_long
  split_ifs <;> omega

/-- C8 counterexample: with a known size of 100, an average rate of 10
and nothing transferred yet, the claim gives an ETA of
remaining / rate = 10 seconds, but the code displays 0 (the so_far < 1
guard of pv_seconds_remaining returns 0 before dividing). -/
theorem pv_c8_counterexample :
    (pv_formatter_eta ⟨100, 1, 0, 0, 10, false⟩).eta = 0 ∧
    pv_bound_long (ratTruncToInt (((100:ℚ) - 0) / 10)) 0 360000000 = 10 ∧
    ¬((0:Int) = 10) := by
  refine ⟨?_, ?_, by decide⟩
  · norm_num [pv_formatter_eta, etaValue, pv_seconds_remaining, pv_bound_long]
  · have h1 : ((100:ℚ) - 0) / 10 = ((10:ℤ):ℚ) := by norm_num
    rw [h1]
    norm_num [ratTruncToInt, Int.floor_intCast, pv_bound_long]

/-- C8 (amended): for every call of the ETA formatter with known size and
a nonempty buffer, the displayed ETA is the remaining amount
(size - transferred) divided by the current average rate, truncated
toward zero and clamped into [0 seconds, 360000000 seconds = 100000
hours] - except that it is 0 outright when less than one unit has moved
past the initial offset or the average rate is below 0.001; the ETA
always lies in the clamp range; a day field is present (4 fields instead
of 3) exactly when the clamped ETA exceeds 86400 seconds; and on the
final update the content is replaced by spaces of the same length. -/
theorem pv_c8_eta_formatter (a : EtaArgs) (hsize : 1 ≤ a.size)
    (hbuf : 0 < a.buffer_size) :
    (pv_formatter_eta a).shown = true ∧
    (1 ≤ a.transferred - a.initial_offset → (1:ℚ)/1000 ≤ a.current_avg_rate →
      (pv_formatter_eta a).eta =
        pv_bound_long
          (ratTruncToInt (((a.size:ℚ) - (a.transferred:ℚ)) / a.current_avg_rate))
          0 360000000) ∧
    ((a.transferred - a.initial_offset < 1 ∨ a.current_avg_rate < 1/1000) →
      (pv_formatter_eta a).eta = 0) ∧
    (0 ≤ (pv_formatter_eta a).eta ∧ (pv_formatter_eta a).eta ≤ 360000000) ∧
    ((pv_formatter_eta a).fields.length = 4 ↔ 86400 < (pv_formatter_eta a).eta) ∧
    (a.final_update = true →
      (pv_formatter_eta a).content.length =
        (etaContentChars ((pv_formatter_eta a).eta)).length ∧
      ∀ c ∈ (pv_formatter_eta a).content, c = ' ') := by
  have hns : ¬(a.size < 1) := by omega
  have hnb : ¬(a.buffer_size = 0) := by omega
  have hshown : (pv_formatter_eta a).shown = true := by
    unfold pv_formatter_eta
    rw [if_neg hns, if_neg hnb]
  have heta : (pv_formatter_eta a).eta = etaValue a := by
    unfold pv_formatter_eta
    rw [if_neg hns, if_neg hnb]
  have hfields : (pv_formatter_eta a).fields = etaFields (etaValue a) := by
    unfold pv_formatter_eta
    rw [if_neg hns, if_neg hnb]
  have hcontent : (pv_formatter_eta a).content =
      (if a.final_update = true then eraseContent (etaContentChars (etaValue a))
       else etaContentChars (etaValue a)) := by
    unfold pv_formatter_eta
    rw [if_neg hns, if_neg hnb]
  refine ⟨hshown, ?_, ?_, ?_, ?_, ?_⟩
  · intro h1 h2
    rw [heta]
    unfold etaValue pv_seconds_remaining
    rw [if_neg (by push_neg; exact ⟨by omega, by linarith⟩)]
    have harg : (((a.size - a.initial_offset : Int) : ℚ) -
        ((a.transferred - a.initial_offset : Int) : ℚ)) / a.current_avg_rate =
        ((a.size:ℚ) - (a.transferred:ℚ)) / a.current_avg_rate := by
      push_cast
      ring
    rw [harg]
  · intro h
    rw [heta]
    unfold etaValue pv_seconds_remaining
    rw [if_pos h]
    norm_num [pv_bound_long]
  · rw [heta]
    exact pv_bound_long_mem _ 0 360000000 (by norm_num)
  · rw [hfields, heta]
    unfold etaFields
    split_ifs with h <;> simp [h]
  · intro hfin
    rw [hcontent, if_pos hfin, heta]
    constructor
    · unfold eraseContent
      rw [List.length_map]
    · intro c hc
      unfold eraseContent at hc
      obtain ⟨x, _, hcx⟩ := List.mem_map.mp hc
      exact hcx.symm

/-- C8 witness: the theorem applied at size 100000, 40 transferred, rate
1 per second: the bounded ETA stays within [0, 360000000]. -/
theorem pv_c8_witness :
    0 ≤ (pv_formatter_eta ⟨100000, 1, 40, 0, 1, false⟩).eta ∧
    (pv_formatter_eta ⟨100000, 1, 40, 0, 1, false⟩).eta ≤ 360000000 :=
  (pv_c8_eta_formatter ⟨100000, 1, 40, 0, 1, false⟩ (by decide)
    (by decide)).2.2.2.1

/- ------------------------- C9 theorems ------------------------- -/

theorem remoteAckReceived_iff (polls : Nat → Option Int) (remote : Int) :
    ∀ timeout step, remoteAckReceived polls remote timeout step = true ↔
      ∃ j, j < numIters timeout ∧ polls (step + j) = some remote := by
  intro timeout
  induction timeout using Nat.strong_induction_on with
  | _ t ih =>
    intro step
    by_cases h : 10000 < t
    · rw [remoteAckReceived, numIters, if_pos h, if_pos h]
      by_cases hp : polls step = some remote
      · rw [if_pos hp]
        constructor
        · intro _
          exact ⟨0, by omega, by rw [Nat.add_zero]; exact hp⟩
        · intro _
          rfl
      · rw [if_neg hp]
        rw [ih (t - 10000) (by omega) (step + 1)]
        constructor
        · rintro ⟨j, hj, hpj⟩
          refine ⟨j + 1, by omega, ?_⟩
          have harr : step + (j + 1) = step + 1 + j := by omega
          rw [harr]
          exact hpj
        · rintro ⟨j, hj, hpj⟩
          cases j with
          | zero =>
            rw [Nat.add_zero] at hpj
            exact absurd hpj hp
          | succ j0 =>
            refine ⟨j0, by omega, ?_⟩
            have harr : step + 1 + j0 = step + (j0 + 1) := by omega
            rw [harr]
            exact hpj
    · rw [remoteAckReceived, numIters, if_neg h, if_neg h]
      simp

theorem remoteAckSlept_le (polls : Nat → Option Int) (remote : Int) :
    ∀ timeout step,
      remoteAckSlept polls remote timeout step ≤ 10000 * numIters timeout := by
  intro timeout
  induction timeout using Nat.strong_induction_on with
  | _ t ih =>
    intro step
    by_cases h : 10000 < t
    · rw [remoteAckSlept, numIters, if_pos h, if_pos h]
      by_cases hp : polls step = some remote
      · rw [if_pos hp]
        omega
      · rw [if_neg hp]
        have hrec := ih (t - 10000) (by omega) (step + 1)
        omega
    · rw [remoteAckSlept, numIters, if_neg h, if_neg h]

theorem numIters_chunks : ∀ k : Nat, numIters (10000 * k + 10000) = k := by
  intro k
  induction k with
  | zero =>
    rw [numIters]
    norm_num
  | succ n ih =>
    rw [numIters, if_pos (by omega)]
    have harg : 10000 * (n + 1) + 10000 - 10000 = 10000 * n + 10000 := by omega
    rw [harg, ih]

/-- C9: after writing the control file and signalling the receiver,
pv_remote_set waits at most 1.1 seconds, polling in 10 ms steps (109
polls, 1.09 s of sleeps), for the acknowledging signal from the matching
pid; the control file is removed whether or not the acknowledgement
arrived; the return value is 0 exactly when the acknowledgement from the
matching pid arrived within the window, and the remote/pid error code
otherwise. -/
theorem pv_c9_remote_ack (polls : Nat → Option Int) (remote : Int) :
    (pv_remote_set_tail polls remote).sleptUsec ≤ 1100000 ∧
    (pv_remote_set_tail polls remote).fileRemoved = true ∧
    ((pv_remote_set_tail polls remote).ret = 0 ↔
      ∃ j, j < 109 ∧ polls j = some remote) ∧
    ((pv_remote_set_tail polls remote).ret = 0 ∨
      (pv_remote_set_tail polls remote).ret = PV_ERROREXIT_REMOTE_OR_PID) := by
  have h109 : numIters 1100000 = 109 := by
    have h := numIters_chunks 109
    norm_num at h
    exact h
  have hiff := remoteAckReceived_iff polls remote 1100000 0
  rw [h109] at hiff
  simp only [Nat.zero_add] at hiff
  refine ⟨?_, rfl, ?_, ?_⟩
  · have h := remoteAckSlept_le polls remote 1100000 0
    rw [h109] at h
    unfold pv_remote_set_tail
    simp only
    omega
  · unfold pv_remote_set_tail
    simp only
    by_cases hr : remoteAckReceived polls remote 1100000 0 = true
    · rw [if_pos hr]
      constructor
      · intro _
        exact hiff.mp hr
      · intro _
        rfl
    · rw [if_neg hr]
      unfold PV_ERROREXIT_REMOTE_OR_PID
      constructor
      · intro hc
        exact absurd hc (by norm_num)
      · intro hex
        exact absurd (hiff.mpr hex) hr
  · unfold pv_remote_set_tail
    simp only
    split_ifs
    · left
      rfl
    · right
      rfl
